import Mathlib

/-!
# Conversify — verification of the spec against the code

Shallow embedding of the two services of the Conversify repository:

* the Django REST API (`djangoapp/api`): file upload, document retrieval,
  the chat-with-document orchestrator (`ChatWithDocument.post`) and the
  audio streaming endpoint (`StreamAudioFromUrl.get`);
* the FastAPI speech-recognition service (`speech_recognition/routes.py`):
  the `/transcribe/` endpoint.

External effects (HTTP fetches, the Whisper model, storage) are passed in
as explicit function parameters; the embedding tracks the side effects the
handlers perform (storage writes, webhook dispatches, temporary files,
whether the document lookup was reached) in the result record.
-/

/-- Minimal JSON value type, used for request/response bodies. -/
inductive Json where
  | null : Json
  | str : String → Json
  | num : Int → Json
  | obj : List (String × Json) → Json

/-! ## Small pieces of Python path semantics used by the code -/

/-- Python str.strip() with no argument: remove whitespace from both ends. -/
def pyStrip (s : String) : String :=
  String.mk (((s.toList.dropWhile Char.isWhitespace).reverse.dropWhile
    Char.isWhitespace).reverse)

/-- Whether a path string begins with the POSIX separator (is absolute). -/
def startsWithSlash (s : String) : Bool :=
  match s.toList with
  | [] => false
  | c :: _ => c == '/'

/-- Whether a path string ends with the POSIX separator. -/
def endsWithSlash (s : String) : Bool :=
  match s.toList.getLast? with
  | some c => c == '/'
  | none => false

/-- os.path.join for two components (POSIX): an absolute second component
replaces the first; otherwise a separator is inserted unless the first
component is empty or already ends with one. -/
def pyJoin2 (a b : String) : String :=
  if startsWithSlash b then b
  else if a == "" || endsWithSlash a then a ++ b
  else a ++ "/" ++ b

/-! ## Data model of the Django app -/

/-- An uploaded file as seen by the view: its client-supplied name and its
bytes. -/
structure UploadedAudio where
  name : String
  content : List Nat
deriving DecidableEq

/-- Embedding of api/models.py Document: the uuid primary key — the model
names it id, while the chat view queries get(ids=...) — the owning user
and the URL of the stored file. -/
structure Document where
  id : String
  userId : Nat
  fileUrl : String
deriving DecidableEq

/-- The validated input of ChatInputSerializer: a document id, optional
text (blank allowed by the field) and an optional audio file. -/
structure ChatRequest where
  documentId : String
  text : Option String
  audio : Option UploadedAudio
deriving DecidableEq

/-- ChatInputSerializer.validate: the request is invalid exactly when
audio is falsy and the text is falsy (absent or empty) or blank after
stripping.  This mirrors
if not audio and (not text or text.strip() == ''): raise ValidationError. -/
def chatInputInvalid (text : Option String) (audio : Option UploadedAudio) : Bool :=
  audio.isNone && (text.isNone || (text.getD "") == "" || pyStrip (text.getD "") == "")

/-- The JSON payload posted to the n8n webhook. -/
structure Payload where
  document_url : String
  user_query : String
deriving DecidableEq

/-- The HTTP response of the chat view, by status class. -/
inductive ChatResponse where
  | badRequest
  | notFound
  | unauthorized
  | serverError (detail : String)
  | badGateway (detail : String)
  | ok (body : Json)

/-- The observable outcome of one ChatWithDocument.post call: the response,
whether the view reached the ORM document lookup, the storage paths
written and the webhook payloads dispatched. -/
structure ChatResult where
  response : ChatResponse
  lookedUp : Bool
  savedPaths : List String
  dispatches : List Payload

/-- Embedding of ChatWithDocument.post (api/views.py).

The database is a list of documents; uuidHex stands for uuid.uuid4().hex;
webhook is the behavior of the single synchronous requests.post to
PIPELINE_URL.  A serializer validation failure returns 400 before
anything else happens.

Past validation the view executes
Document.objects.get(ids=serializer.validated_data['document_id']), but
the Document model names its primary key id, not ids, so Django raises
FieldError ("Cannot resolve keyword 'ids' into field") while building
the query, before the table is consulted.  The view's except clause
catches only Document.DoesNotExist, and nothing below it handles
FieldError, so the exception escapes as an HTTP 500 server error: the
not-found, ownership, audio-save and webhook code after the get call is
unreachable, and db, requestUserId, uuidHex and webhook are never
consulted — no storage write and no dispatch ever happens. -/
def chatPost (_db : List Document) (_requestUserId : Nat) (req : ChatRequest)
    (_uuidHex : String) (_webhook : Payload → Except String Json) : ChatResult :=
  if chatInputInvalid req.text req.audio then
    { response := .badRequest, lookedUp := false, savedPaths := [], dispatches := [] }
  else
    { response := .serverError "FieldError: Cannot resolve keyword 'ids' into field",
      lookedUp := true, savedPaths := [], dispatches := [] }

/-! ## The audio streaming endpoint -/

/-- Django's str path converter used by
path('audio_stream/<str:filename>', ...): it matches one nonempty path
segment, regex [^/]+ — any remainder containing a separator fails to
match the pattern. -/
def strConverterMatch (s : String) : Bool :=
  !s.isEmpty && !s.toList.contains '/'

/-- URL resolution for the audio_stream route: the captured filename when
the remainder matches the str converter, none otherwise (Django then
answers 404, the view is never invoked). -/
def routeAudioStream (urlTail : String) : Option String :=
  if strConverterMatch urlTail then some urlTail else none

/-- The response of StreamAudioFromUrl.get. -/
inductive StreamResponse where
  | fileStream (path : String)
  | notFound

/-- Embedding of StreamAudioFromUrl.get: join MEDIA_ROOT, 'uploads' and
the filename; stream the file if it exists, else 404. -/
def streamAudioGet (mediaRoot : String) (existingPaths : List String)
    (filename : String) : StreamResponse :=
  let audioUrl := pyJoin2 (pyJoin2 mediaRoot "uploads") filename
  if existingPaths.contains audioUrl then .fileStream audioUrl else .notFound

/-- The route plus the view: what a GET /audio_stream/<urlTail> request
observes. -/
def audioStreamEndpoint (mediaRoot : String) (existingPaths : List String)
    (urlTail : String) : StreamResponse :=
  match routeAudioStream urlTail with
  | none => .notFound
  | some filename => streamAudioGet mediaRoot existingPaths filename

/-! ## The speech-recognition service -/

/-- The pydantic request model of the /transcribe/ route. -/
structure AudioURL where
  filename : String

/-- Result of the requests.get download: status code and body bytes. -/
structure DownloadResp where
  status : Nat
  content : List Nat

/-- An HTTP outcome of the FastAPI route: a JSON body or an HTTPException
with its status code and detail. -/
inductive HttpResult where
  | ok (body : Json)
  | error (status : Nat) (detail : String)

/-- The observable outcome of one /transcribe/ call: the response and the
temporary files existing on disk when the response is returned. -/
structure TranscribeResult where
  response : HttpResult
  tempFiles : List String

/-- str(e) for a starlette HTTPException: "status: detail". -/
def strHTTPException (status : Nat) (detail : String) : String :=
  toString status ++ ": " ++ detail

/-- Embedding of the body of transcribe (speech_recognition/routes.py).

fetch is requests.get against DJANGO_CHAT_URL + filename; runModel is the
Whisper transcription of the downloaded bytes (ok carries the joined
segment text, error the message of a runtime exception); freshTmpName is
the name of the NamedTemporaryFile, created with delete=False and never
unlinked.

The whole body sits in one try; the HTTPException(400) raised on a
non-200 download is itself an Exception, so the blanket except clause
catches it and re-raises HTTPException(500, str(e)). -/
def transcribeBody (djangoChatUrl : String) (fetch : String → DownloadResp)
    (runModel : List Nat → Except String String)
    (freshTmpName : String) (tempFilesBefore : List String)
    (payload : AudioURL) : TranscribeResult :=
  let response := fetch (djangoChatUrl ++ payload.filename)
  if response.status ≠ 200 then
    { response := .error 500 (strHTTPException 400 "Failed to download audio file"),
      tempFiles := tempFilesBefore }
  else
    let tempFilesAfter := tempFilesBefore ++ [freshTmpName]
    match runModel response.content with
    | .error e => { response := .error 500 e, tempFiles := tempFilesAfter }
    | .ok text =>
      { response := .ok (Json.obj [("transcription", Json.str text)]),
        tempFiles := tempFilesAfter }

/-- What one POST /transcribe/ request can carry: a JSON body with a
filename, a directly uploaded file blob, or both. -/
structure TranscribeRequest where
  jsonFilename : Option String
  uploadedFile : Option (List Nat)

/-- FastAPI body validation for transcribe(payload: AudioURL): the single
declared parameter is the pydantic model, so a request without a JSON
filename body — in particular a bare multipart file upload — fails
validation with 422 before the handler runs. -/
def parseTranscribeBody (r : TranscribeRequest) : Except Nat AudioURL :=
  match r.jsonFilename with
  | some f => .ok { filename := f }
  | none => .error 422

/-- The full /transcribe/ endpoint: body validation, then the handler. -/
def transcribeEndpoint (djangoChatUrl : String) (fetch : String → DownloadResp)
    (runModel : List Nat → Except String String)
    (freshTmpName : String) (tempFilesBefore : List String)
    (r : TranscribeRequest) : TranscribeResult :=
  match parseTranscribeBody r with
  | .error c => { response := .error c "validation error", tempFiles := tempFilesBefore }
  | .ok payload =>
    transcribeBody djangoChatUrl fetch runModel freshTmpName tempFilesBefore payload


/-- Test fixture: a stored document owned by user 7. -/
def docA : Document :=
  { id := "d1", userId := 7, fileUrl := "/media/Documents/a.pdf" }

/-- Test fixture: an uploaded mp3 clip. -/
def clipA : UploadedAudio :=
  { name := "clip.mp3", content := [1, 2, 3] }

/-- Test fixture: a chat request by document d1's owner carrying clipA. -/
def reqClipA : ChatRequest :=
  { documentId := "d1", text := none, audio := some clipA }

/-! ## Claims -/

/-- C1: the spec says a chat request by the document owner carrying
non-blank text "hello" and no audio dispatches the payload
{document_url: doc.file.url, user_query: "hello"} built from the trimmed
text.  The code crashes before any dispatch: the lookup
Document.objects.get(ids=...) names no field of the Document model
(whose primary key is id), so Django raises FieldError, the view catches
only DoesNotExist, and the caller gets an HTTP 500 server error while
nothing is sent to the workflow endpoint. -/
theorem c1_text_only_chat_crashes :
    (chatPost [docA] 7 { documentId := "d1", text := some "hello", audio := none }
        "aabbccdd" (fun _ => Except.ok Json.null)).response
      = ChatResponse.serverError "FieldError: Cannot resolve keyword 'ids' into field"
    ∧ (chatPost [docA] 7 { documentId := "d1", text := some "hello", audio := none }
        "aabbccdd" (fun _ => Except.ok Json.null)).dispatches = [] :=
  ⟨rfl, rfl⟩

/-- C2: a GET /audio_stream/{filename} request whose filename contains a
path separator (e.g. ../../etc/passwd) never matches the str path
converter of the route, so the request is rejected (404) and the view
never resolves a path; every filename the route does dispatch is a single
path segment, free of separators. -/
theorem c2_audio_stream_rejects_traversal (mediaRoot : String)
    (existingPaths : List String) (urlTail : String)
    (h : urlTail.toList.contains '/' = true) :
    audioStreamEndpoint mediaRoot existingPaths urlTail = StreamResponse.notFound
    ∧ routeAudioStream urlTail = none
    ∧ ∀ t f, routeAudioStream t = some f → f.toList.contains '/' = false := by
  have hm : strConverterMatch urlTail = false := by
    unfold strConverterMatch
    rw [h]
    simp
  refine ⟨?_, ?_, ?_⟩
  · simp [audioStreamEndpoint, routeAudioStream, hm]
  · simp [routeAudioStream, hm]
  · intro t f hf
    by_cases hc : strConverterMatch t = true
    · simp only [routeAudioStream, hc, if_pos, Option.some.injEq] at hf
      subst hf
      simp only [strConverterMatch, Bool.and_eq_true, Bool.not_eq_true'] at hc
      exact hc.2
    · simp [routeAudioStream, hc] at hf

/-- Witness for C2 at filename ../../etc/passwd. -/
theorem c2_audio_stream_rejects_traversal_witness :
    ("../../etc/passwd".toList.contains '/' = true)
    ∧ audioStreamEndpoint "/media" ["/media/uploads/clip.mp3"] "../../etc/passwd"
        = StreamResponse.notFound :=
  ⟨by decide,
   (c2_audio_stream_rejects_traversal "/media" ["/media/uploads/clip.mp3"]
      "../../etc/passwd" (by decide)).1⟩

/-- C3: the spec (and the function's own docstring) say a fetch-by-filename
transcription whose download returns a non-2xx status yields a client
error (HTTP 400, "Failed to download audio file").  The HTTPException(400)
is raised inside the blanket try/except Exception, which catches it and
re-raises HTTPException(500, str(e)): the caller actually receives a
server error 500, and no temporary file is created. -/
theorem c3_download_failure_returns_500 :
    (transcribeEndpoint "http://django/audio_stream/"
        (fun _ => { status := 404, content := [] })
        (fun _ => Except.ok "unused") "/tmp/tmpabc.mp3" []
        { jsonFilename := some "missing.mp3", uploadedFile := none }).response
      = HttpResult.error 500 "400: Failed to download audio file"
    ∧ (transcribeEndpoint "http://django/audio_stream/"
        (fun _ => { status := 404, content := [] })
        (fun _ => Except.ok "unused") "/tmp/tmpabc.mp3" []
        { jsonFilename := some "missing.mp3", uploadedFile := none }).tempFiles = [] :=
  ⟨rfl, rfl⟩

/-- C4: the spec says a chat request naming a nonexistent document id is
answered 404 not-found for every accepted payload shape, the lookup
either returning the document or signalling DoesNotExist.  The lookup
keyword ids matches no field of the Document model (its primary key is
id), so Django raises FieldError before consulting the table; the except
Document.DoesNotExist clause does not catch it, and every validated
request — here text "hello" against an empty document table — receives
an HTTP 500 server error, never the 404. -/
theorem c4_nonexistent_document_crashes :
    (chatPost [] 7 { documentId := "d1", text := some "hello", audio := none }
        "aabbccdd" (fun _ => Except.ok Json.null)).response
      = ChatResponse.serverError "FieldError: Cannot resolve keyword 'ids' into field" :=
  rfl

/-- C5: the spec says a chat request against an existing document of
another owner is answered 401 unauthorized, after existence resolution
and before any side effect.  The code never reaches the ownership
comparison: the get(ids=...) lookup raises FieldError (the model's field
is id) and the request — here user 8 posting audio against user 7's
document — dies with an HTTP 500 server error.  No artifact is saved
and nothing is dispatched, but only because the crash precedes those
effects, not because the 401 path ran. -/
theorem c5_unauthorized_check_unreachable :
    (chatPost [docA] 8 reqClipA "aabbccdd" (fun _ => Except.ok Json.null)).response
      = ChatResponse.serverError "FieldError: Cannot resolve keyword 'ids' into field"
    ∧ (chatPost [docA] 8 reqClipA "aabbccdd" (fun _ => Except.ok Json.null)).savedPaths
      = []
    ∧ (chatPost [docA] 8 reqClipA "aabbccdd" (fun _ => Except.ok Json.null)).dispatches
      = [] :=
  ⟨rfl, rfl, rfl⟩

/-- C6: a chat request whose text is blank or absent and which carries no
audio fails serializer validation: the response is the 400 validation
error and nothing else happened — no document lookup, no storage write,
no webhook dispatch. -/
theorem c6_blank_input_rejected_before_side_effects (db : List Document) (uid : Nat)
    (req : ChatRequest) (uuidHex : String) (webhook : Payload → Except String Json)
    (haudio : req.audio = none) (htext : pyStrip (req.text.getD "") = "") :
    (chatPost db uid req uuidHex webhook).response = ChatResponse.badRequest
    ∧ (chatPost db uid req uuidHex webhook).lookedUp = false
    ∧ (chatPost db uid req uuidHex webhook).savedPaths = []
    ∧ (chatPost db uid req uuidHex webhook).dispatches = [] := by
  have hinv : chatInputInvalid req.text req.audio = true := by
    simp [chatInputInvalid, haudio, htext]
  simp [chatPost, hinv]

/-- Witness for C6: whitespace-only text, no audio. -/
theorem c6_blank_input_rejected_before_side_effects_witness :
    ((some "   " : Option String).getD "" |> pyStrip) = ""
    ∧ (chatPost [{ id := "d1", userId := 7, fileUrl := "/media/Documents/a.pdf" }] 7
        { documentId := "d1", text := some "   ", audio := none } "aabbccdd"
        (fun _ => Except.ok Json.null)).response = ChatResponse.badRequest :=
  ⟨by decide,
   (c6_blank_input_rejected_before_side_effects
      [{ id := "d1", userId := 7, fileUrl := "/media/Documents/a.pdf" }] 7
      { documentId := "d1", text := some "   ", audio := none } "aabbccdd"
      (fun _ => Except.ok Json.null) rfl (by decide)).1⟩

/-- C7 counterexample: the claim says the transcription endpoint also
accepts a directly uploaded audio blob.  The route's only parameter is the
pydantic AudioURL body, so a request carrying just an uploaded blob and no
JSON filename fails body validation with 422 and no transcription is
returned. -/
theorem c7_upload_mode_not_supported :
    (transcribeEndpoint "http://django/audio_stream/"
        (fun _ => { status := 200, content := [1] })
        (fun _ => Except.ok "hi") "/tmp/tmpabc.mp3" []
        { jsonFilename := none, uploadedFile := some [1, 2, 3] }).response
      = HttpResult.error 422 "validation error" := rfl

/-- C7 (amended): the transcription endpoint supports exactly one
interaction mode — a JSON body with a filename reference, fetched from the
Audio Store's retrieval endpoint and answered with {transcription: text};
a request without the JSON filename body (in particular a direct file
upload) is rejected by validation. -/
theorem c7_filename_mode_only (djangoChatUrl f tmp : String)
    (before : List String) (fetch : String → DownloadResp)
    (runModel : List Nat → Except String String) (t : String)
    (hstatus : (fetch (djangoChatUrl ++ f)).status = 200)
    (hmodel : runModel (fetch (djangoChatUrl ++ f)).content = Except.ok t) :
    (transcribeEndpoint djangoChatUrl fetch runModel tmp before
        { jsonFilename := some f, uploadedFile := none }).response
      = HttpResult.ok (Json.obj [("transcription", Json.str t)])
    ∧ ∀ r : TranscribeRequest, r.jsonFilename = none →
        (transcribeEndpoint djangoChatUrl fetch runModel tmp before r).response
          = HttpResult.error 422 "validation error" := by
  constructor
  · simp [transcribeEndpoint, parseTranscribeBody, transcribeBody, hstatus, hmodel]
  · intro r hr
    simp [transcribeEndpoint, parseTranscribeBody, hr]

/-- Witness for C7 (amended) at filename clip.mp3. -/
theorem c7_filename_mode_only_witness :
    ((fun _ => { status := 200, content := [5] } : String → DownloadResp)
        ("http://django/audio_stream/" ++ "clip.mp3")).status = 200
    ∧ (transcribeEndpoint "http://django/audio_stream/"
        (fun _ => { status := 200, content := [5] })
        (fun _ => Except.ok "hello there") "/tmp/tmpabc.mp3" []
        { jsonFilename := some "clip.mp3", uploadedFile := none }).response
      = HttpResult.ok (Json.obj [("transcription", Json.str "hello there")]) :=
  ⟨rfl,
   (c7_filename_mode_only "http://django/audio_stream/" "clip.mp3" "/tmp/tmpabc.mp3"
      [] (fun _ => { status := 200, content := [5] })
      (fun _ => Except.ok "hello there") "hello there" rfl rfl).1⟩

/-- C8: the spec says a successful webhook dispatch relays the workflow's
JSON body to the caller and a non-2xx or transport failure yields a 502
carrying the message.  The single synchronous POST is never performed:
every validated chat request crashes with FieldError at the document
lookup (the query keyword ids names no field; the model's primary key is
id) and returns an HTTP 500 server error, so neither the relay nor the
502 path is reachable — here the owner requests with audio and a webhook
that would answer the JSON "hi", yet no dispatch occurs. -/
theorem c8_webhook_never_reached :
    (chatPost [docA] 7 reqClipA "aabbccdd"
        (fun _ => Except.ok (Json.str "hi"))).response
      = ChatResponse.serverError "FieldError: Cannot resolve keyword 'ids' into field"
    ∧ (chatPost [docA] 7 reqClipA "aabbccdd"
        (fun _ => Except.ok (Json.str "hi"))).dispatches = [] :=
  ⟨rfl, rfl⟩

/-- C9: the spec says an owner's chat request with a .mp3 audio file
saves exactly one artifact at uploads/<uuid4 hex>.mp3 and dispatches a
payload whose user_query is that generated name.  The save-and-dispatch
block is unreachable: the document lookup above it raises FieldError
(the model's field is id, the query keyword ids), and the request
returns an HTTP 500 server error with no artifact saved and no payload
dispatched. -/
theorem c9_audio_save_unreachable :
    (chatPost [docA] 7 reqClipA "aabbccdd"
        (fun _ => Except.ok Json.null)).savedPaths = []
    ∧ (chatPost [docA] 7 reqClipA "aabbccdd"
        (fun _ => Except.ok Json.null)).dispatches = []
    ∧ (chatPost [docA] 7 reqClipA "aabbccdd"
        (fun _ => Except.ok Json.null)).response
      = ChatResponse.serverError "FieldError: Cannot resolve keyword 'ids' into field" :=
  ⟨rfl, rfl, rfl⟩

/-- C10: a successful fetch-by-filename transcription writes the download
to a NamedTemporaryFile created with delete=False and never unlinks it:
after the response is returned, exactly one new temporary file remains on
disk. -/
theorem c10_orphaned_temp_file (djangoChatUrl f tmp : String)
    (before : List String) (fetch : String → DownloadResp)
    (runModel : List Nat → Except String String) (t : String)
    (hstatus : (fetch (djangoChatUrl ++ f)).status = 200)
    (hmodel : runModel (fetch (djangoChatUrl ++ f)).content = Except.ok t) :
    (transcribeEndpoint djangoChatUrl fetch runModel tmp before
        { jsonFilename := some f, uploadedFile := none }).tempFiles
      = before ++ [tmp]
    ∧ (transcribeEndpoint djangoChatUrl fetch runModel tmp before
        { jsonFilename := some f, uploadedFile := none }).response
      = HttpResult.ok (Json.obj [("transcription", Json.str t)]) := by
  constructor <;>
    simp [transcribeEndpoint, parseTranscribeBody, transcribeBody, hstatus, hmodel]

/-- Witness for C10: one successful transcription leaves /tmp/tmpabc.mp3. -/
theorem c10_orphaned_temp_file_witness :
    ((fun _ => { status := 200, content := [5] } : String → DownloadResp)
        ("http://django/audio_stream/" ++ "clip.mp3")).status = 200
    ∧ (transcribeEndpoint "http://django/audio_stream/"
        (fun _ => { status := 200, content := [5] })
        (fun _ => Except.ok "hello there") "/tmp/tmpabc.mp3" []
        { jsonFilename := some "clip.mp3", uploadedFile := none }).tempFiles
      = [] ++ ["/tmp/tmpabc.mp3"] :=
  ⟨rfl,
   (c10_orphaned_temp_file "http://django/audio_stream/" "clip.mp3" "/tmp/tmpabc.mp3"
      [] (fun _ => { status := 200, content := [5] })
      (fun _ => Except.ok "hello there") "hello there" rfl rfl).1⟩
